import Mathlib

/-!
Shallow embedding of the cart/checkout workflow and the product/order REST
handlers of a small e-commerce server (one JavaScript file combining an
Express backend with a server-rendered React/Redux cart UI).

Modelling conventions: JavaScript numbers are rationals (`Rat`), JSON
fields that may be absent are `Option` (an absent field is `none`,
mirroring `undefined`), the Mongo-generated identifiers are naturals drawn
from a per-collection counter, and each persisted collection is the list
of saved documents in insertion order.
-/

namespace Ecommerce

/-- A cart entry as dispatched by `addToCart(product)`: the product object
with the fields the UI and the reducer read (`id`, `name`, `price`). -/
structure CartItem where
  id : String
  name : String
  price : Rat
deriving Repr, DecidableEq

/-- The Redux store state: `const initialState = { cart: [] }` — the cart
is the only field. -/
structure State where
  cart : List CartItem
deriving Repr, DecidableEq

/-- `const ADD_TO_CART = 'ADD_TO_CART'`. -/
def ADD_TO_CART : String := "ADD_TO_CART"

/-- `const REMOVE_FROM_CART = 'REMOVE_FROM_CART'`. -/
def REMOVE_FROM_CART : String := "REMOVE_FROM_CART"

/-- `const EMPTY_CART = 'EMPTY_CART'`. -/
def EMPTY_CART : String := "EMPTY_CART"

/-- Redux actions, one constructor per action creator (`addToCart`,
`removeFromCart`, `emptyCart`, each pairing its type constant with its
payload), plus `unknown t` for a dispatched action whose `type` string `t`
is none of the three constants — the case handled by the reducer's
`default` branch. -/
inductive Action
  | addToCart (product : CartItem)
  | removeFromCart (productId : String)
  | emptyCart
  | unknown (type : String)
deriving Repr, DecidableEq

/-- The reducer: switch on `action.type`; `ADD_TO_CART` returns
`{ ...state, cart: [...state.cart, action.payload] }`, `REMOVE_FROM_CART`
returns `{ ...state, cart: state.cart.filter(item => item.id !== action.payload) }`,
`EMPTY_CART` returns `{ ...state, cart: [] }`, and `default` returns
`state`. -/
def reducer (state : State) (action : Action) : State :=
  match action with
  | .addToCart product => { state with cart := state.cart ++ [product] }
  | .removeFromCart productId =>
      { state with cart := state.cart.filter (fun item => item.id != productId) }
  | .emptyCart => { state with cart := [] }
  | .unknown _ => state

/-- `const initialState = { cart: [] }`. -/
def initialState : State := { cart := [] }

/-- The total computed inside `handleCheckout`:
`cart.reduce((acc, item) => acc + item.price, 0)`. -/
def computeTotal (cart : List CartItem) : Rat :=
  cart.foldl (fun acc item => acc + item.price) 0

/-- Body of the checkout request: `JSON.stringify({ products: cart, total })`. -/
structure OrderRequestBody where
  products : List CartItem
  total : Rat
deriving Repr, DecidableEq

/-- One `fetch` call issued by the client: path, method and JSON body. -/
structure FetchCall where
  path : String
  method : String
  body : OrderRequestBody
deriving Repr, DecidableEq

/-- Outcome of the awaited `fetch`: `resolved ok` when a response was
received (`ok` records whether its HTTP status was successful — the code
never inspects the response), `rejected` when the promise rejected with no
response (network-level error). -/
inductive FetchOutcome
  | resolved (ok : Bool)
  | rejected
deriving Repr, DecidableEq

/-- Observable effect of a `handleCheckout` run: the fetch calls it issued
and the cart contents once it finished. -/
structure CheckoutResult where
  requests : List FetchCall
  cart : List CartItem
deriving Repr, DecidableEq

/-- `handleCheckout`: compute the total, `await fetch('/orders', ...)` with
body `{ products: cart, total }`, then dispatch `emptyCart()`. When the
awaited fetch resolves (whatever the response status), `emptyCart()` runs;
when it rejects, the `await` throws and `emptyCart()` is never reached, so
the cart is left as it was. -/
def handleCheckout (cart : List CartItem) (outcome : FetchOutcome) : CheckoutResult :=
  let total := computeTotal cart
  let call : FetchCall :=
    { path := "/orders", method := "POST", body := { products := cart, total := total } }
  match outcome with
  | .resolved _ => { requests := [call], cart := (reducer { cart := cart } .emptyCart).cart }
  | .rejected => { requests := [call], cart := cart }

/-- An order sub-document per `orderSchema`: `{ id: String, quantity: Number }`.
Both fields are optional in the schema; an absent field is stored as
undefined (`none`). -/
structure OrderProduct where
  id : Option String
  quantity : Option Rat
deriving Repr, DecidableEq

/-- The mongoose cast of a cart item to the `orderSchema` sub-document:
`id` is kept, there is no `quantity` field on a cart item (undefined), and
`name`/`price` are stripped because the schema does not declare them. -/
def castToOrderProduct (item : CartItem) : OrderProduct :=
  { id := some item.id, quantity := none }

/-- A persisted order: store-generated `id`, plus `products` and `total`
per `orderSchema`. -/
structure Order where
  id : Nat
  products : List OrderProduct
  total : Rat
deriving Repr, DecidableEq

/-- The order collection: saved documents in insertion order plus the
generator for the next document id. -/
structure OrderStore where
  nextId : Nat
  orders : List Order
deriving Repr, DecidableEq

/-- Request body of `POST /orders`, destructured as
`const { products, total } = req.body`. -/
structure OrdersBody where
  products : List OrderProduct
  total : Rat
deriving Repr, DecidableEq

/-- HTTP response of `POST /orders`: `res.status(201).json(newOrder)`. -/
structure OrdersResponse where
  status : Nat
  order : Order
deriving Repr, DecidableEq

/-- `app.post('/orders')`: `new Order({ products, total })` then
`newOrder.save()` then `res.status(201).json(newOrder)`. The store
generates the id; `products` and `total` are persisted exactly as given
(no recomputation, no existence check on product ids). -/
def postOrders (store : OrderStore) (body : OrdersBody) : OrderStore × OrdersResponse :=
  let newOrder : Order := { id := store.nextId, products := body.products, total := body.total }
  ({ nextId := store.nextId + 1, orders := store.orders ++ [newOrder] },
   { status := 201, order := newOrder })

/-- `Order.find()` on the persistence backend: every saved order. -/
def findOrders (store : OrderStore) : List Order := store.orders

/-- A persisted product per `productSchema`: store-generated `id`, plus
`name: String` and `price: Number`, both optional in the schema (absent
input fields are stored as undefined). -/
structure Product where
  id : Nat
  name : Option String
  price : Option Rat
deriving Repr, DecidableEq

/-- The product collection: saved documents in insertion order plus the
generator for the next document id. -/
structure ProductStore where
  nextId : Nat
  products : List Product
deriving Repr, DecidableEq

/-- Request body of `POST /products`: `req.body` cast by `productSchema`;
either field may be absent, a negative price or empty name is possible —
nothing is validated. -/
structure ProductBody where
  name : Option String
  price : Option Rat
deriving Repr, DecidableEq

/-- HTTP response of `POST /products`: `res.status(201).json(newProduct)`. -/
structure ProductResponse where
  status : Nat
  product : Product
deriving Repr, DecidableEq

/-- `app.post('/products')`: `new Product(req.body)` then
`newProduct.save()` then `res.status(201).json(newProduct)`. No
validation: the body's fields are stored exactly as given, absent fields
as undefined. -/
def postProducts (store : ProductStore) (body : ProductBody) : ProductStore × ProductResponse :=
  let newProduct : Product := { id := store.nextId, name := body.name, price := body.price }
  ({ nextId := store.nextId + 1, products := store.products ++ [newProduct] },
   { status := 201, product := newProduct })

/-- `app.get('/products')`: `Product.find()` then `res.json(products)` —
all products in store order, no filtering. -/
def getProducts (store : ProductStore) : List Product := store.products

/-- The three dispatchable cart actions, as quantified over by the spec's
reducer-semantics property (the `unknown` case is not among them). -/
inductive CartAction
  | add (product : CartItem)
  | remove (productId : String)
  | empty
deriving Repr, DecidableEq

/-- The Redux action built by the corresponding action creator. -/
def CartAction.toAction : CartAction → Action
  | .add product => .addToCart product
  | .remove productId => .removeFromCart productId
  | .empty => .emptyCart

/-- Modelled from the spec (for comparison with `reducer`): the ordered
sequence predicted by reducer semantics — `addToCart(product)` appends
`product` at the end, `removeFromCart(productId)` keeps exactly the
entries whose id differs from `productId` in their original relative
order, `emptyCart()` yields the empty sequence. -/
def specCart : List CartItem → List CartAction → List CartItem
  | cart, [] => cart
  | cart, CartAction.add product :: rest => specCart (cart ++ [product]) rest
  | cart, CartAction.remove productId :: rest =>
      specCart (cart.filter (fun item => item.id != productId)) rest
  | cart, CartAction.empty :: rest => specCart [] rest

/-- Helper: folding addition of prices over a cart, from any accumulator,
gives the accumulator plus the sum of the prices. -/
theorem foldl_add_price (cart : List CartItem) (acc : Rat) :
    cart.foldl (fun acc item => acc + item.price) acc
      = acc + (cart.map (fun item => item.price)).sum := by
  induction cart generalizing acc with
  | nil => simp
  | cons head tail ih => simp [List.foldl_cons, ih, add_assoc]

/-- Claim C1: for every cart state, when the checkout order-creation
request completes — the awaited fetch resolves with a response, whether
its status is success or failure — `emptyCart()` is invoked and the cart
is reset to the empty sequence. -/
theorem checkout_empties_cart_on_completion (cart : List CartItem) (ok : Bool) :
    (handleCheckout cart (FetchOutcome.resolved ok)).cart = [] := rfl

/-- Claim C2: for every initial cart and every finite sequence of
addToCart/removeFromCart/emptyCart actions, the cart produced by the
reducer equals the ordered sequence predicted by the spec's reducer
semantics (append-only add, filter-by-id remove, clear-to-empty). -/
theorem reducer_matches_spec_semantics (init : List CartItem) (actions : List CartAction) :
    (actions.foldl (fun s a => reducer s a.toAction) { cart := init }).cart
      = specCart init actions := by
  induction actions generalizing init with
  | nil => rfl
  | cons head tail ih =>
      cases head with
      | add product => simpa [CartAction.toAction, reducer, specCart] using ih (init ++ [product])
      | remove productId =>
          simpa [CartAction.toAction, reducer, specCart]
            using ih (init.filter (fun item => item.id != productId))
      | empty => simpa [CartAction.toAction, reducer, specCart] using ih []

/-- Claim C3: removeFromCart(productId) removes all entries whose id
equals productId (the result is exactly the filter keeping the entries
whose id differs, no survivor has the removed id), is a no-op when no
entry matches, and adding the same product twice to an empty cart then
removing its id once yields the empty cart. -/
theorem removeFromCart_removes_all_matching (cart : List CartItem) (productId : String) :
    ((reducer { cart := cart } (Action.removeFromCart productId)).cart
        = cart.filter (fun item => item.id != productId)) ∧
    (∀ item ∈ (reducer { cart := cart } (Action.removeFromCart productId)).cart,
        item.id ≠ productId) ∧
    ((∀ item ∈ cart, item.id ≠ productId) →
        (reducer { cart := cart } (Action.removeFromCart productId)).cart = cart) ∧
    (∀ product : CartItem,
        (reducer (reducer (reducer initialState (Action.addToCart product))
            (Action.addToCart product)) (Action.removeFromCart product.id)).cart = []) := by
  refine ⟨rfl, ?_, ?_, ?_⟩
  · intro item hmem
    simp only [reducer, List.mem_filter, bne_iff_ne, ne_eq] at hmem
    exact hmem.2
  · intro hnone
    simp only [reducer]
    exact List.filter_eq_self.mpr fun item hmem => by
      simpa [bne_iff_ne] using hnone item hmem
  · intro product
    simp [reducer, initialState]

/-- Witness for claim C3's theorem at a concrete cart with no matching
entry: removing an absent id leaves the one-item cart unchanged. -/
theorem removeFromCart_removes_all_matching_witness :
    (reducer { cart := [⟨"a", "apple", 3⟩] } (Action.removeFromCart "z")).cart
      = [⟨"a", "apple", 3⟩] :=
  (removeFromCart_removes_all_matching [⟨"a", "apple", 3⟩] "z").2.2.1 (by decide)

/-- Claim C4: the total computed at checkout is the sum of the price
fields of the cart's entries (quantity implicitly 1 per entry, duplicates
counted separately); for a cart with prices 10, 5, 5 the total is 20. -/
theorem checkout_total_is_sum_of_prices (cart : List CartItem) :
    computeTotal cart = (cart.map (fun item => item.price)).sum ∧
    computeTotal [⟨"a", "a", 10⟩, ⟨"b", "b", 5⟩, ⟨"c", "c", 5⟩] = 20 := by
  constructor
  · simpa using foldl_add_price cart 0
  · norm_num [computeTotal]

/-- Claim C5: checkout issues exactly one create request, a POST to
/orders whose body is the current cart contents as `products` and the
computed total as `total` (in every outcome, resolved or rejected); and
when the order store persists that cart (each entry cast to the
orderSchema sub-document), the persisted order's products field is the
sequence of {id, quantity} records cast from the cart. -/
theorem checkout_single_request_and_persisted_shape (cart : List CartItem)
    (outcome : FetchOutcome) (store : OrderStore) :
    ((handleCheckout cart outcome).requests
      = [{ path := "/orders", method := "POST",
           body := { products := cart, total := computeTotal cart } }]) ∧
    ((postOrders store
        { products := cart.map castToOrderProduct, total := computeTotal cart }).2.order.products
      = cart.map (fun item => { id := some item.id, quantity := none })) := by
  constructor
  · cases outcome <;> rfl
  · rfl

/-- Claim C6: for every request body {products, total}, POST /orders
persists products and total exactly as given (no recomputation of the
total, no existence check on product ids — the body is arbitrary),
responds 201 with the created record carrying the store-generated id, and
the record is retrievable from the order collection with identical
products array and total. -/
theorem createOrder_persists_as_given (store : OrderStore) (body : OrdersBody) :
    ((postOrders store body).2.status = 201) ∧
    ((postOrders store body).2.order.id = store.nextId) ∧
    ((postOrders store body).2.order.products = body.products) ∧
    ((postOrders store body).2.order.total = body.total) ∧
    ((postOrders store body).2.order ∈ findOrders (postOrders store body).1) := by
  refine ⟨rfl, rfl, rfl, rfl, ?_⟩
  simp [postOrders, findOrders]

/-- Claim C7: a product created via POST /products (which responds 201
with the created record carrying a generated id) appears in the list
returned by GET /products with name and price identical to those given at
creation. -/
theorem product_creation_round_trip (store : ProductStore) (name : String) (price : Rat) :
    ((postProducts store { name := some name, price := some price }).2.status = 201) ∧
    ((postProducts store { name := some name, price := some price }).2.product ∈
        getProducts (postProducts store { name := some name, price := some price }).1) ∧
    ((postProducts store { name := some name, price := some price }).2.product.name
        = some name) ∧
    ((postProducts store { name := some name, price := some price }).2.product.price
        = some price) := by
  refine ⟨rfl, ?_, rfl, rfl⟩
  simp [postProducts, getProducts]

/-- Claim C8: emptyCart is idempotent — applying the EMPTY_CART action
twice yields the same state as applying it once, and that state is the
empty cart. -/
theorem emptyCart_idempotent (s : State) :
    (reducer (reducer s Action.emptyCart) Action.emptyCart = reducer s Action.emptyCart) ∧
    (reducer s Action.emptyCart = initialState) :=
  ⟨rfl, rfl⟩

/-- Claim C9: POST /products performs no input validation — every body,
including one with a missing name or price, a negative price or an empty
name, is accepted with a 201 response and stored exactly as given, absent
fields as undefined; concretely, a body with no price is stored with an
undefined price. -/
theorem createProduct_no_validation (store : ProductStore) (body : ProductBody) :
    ((postProducts store body).2.status = 201) ∧
    ((postProducts store body).2.product.name = body.name) ∧
    ((postProducts store body).2.product.price = body.price) ∧
    ((postProducts store body).2.product ∈ getProducts (postProducts store body).1) ∧
    ((postProducts store { name := some "Widget", price := none }).2.product.price = none) := by
  refine ⟨rfl, rfl, rfl, ?_, rfl⟩
  simp [postProducts, getProducts]

/-- Claim C10: for every state and every dispatched action whose type
string is none of ADD_TO_CART, REMOVE_FROM_CART and EMPTY_CART, the
reducer returns the state unchanged. -/
theorem reducer_default_returns_state (s : State) (t : String)
    (h1 : t ≠ ADD_TO_CART) (h2 : t ≠ REMOVE_FROM_CART) (h3 : t ≠ EMPTY_CART) :
    reducer s (Action.unknown t) = s := rfl

/-- Witness for claim C10's theorem at a concrete state and action type. -/
theorem reducer_default_returns_state_witness :
    reducer initialState (Action.unknown "RESET") = initialState :=
  reducer_default_returns_state initialState "RESET" (by decide) (by decide) (by decide)

end Ecommerce
